import Mathlib

set_option linter.unusedVariables false

/-!
Shallow embedding of `btlewrap/base.py`: the `BluetoothInterface` wrapper,
the `_BackendConnection` context manager (connection guard) with its
class-level lock, and the `AbstractBackend` default method bodies.

Python exceptions are modelled with `Except Err`; the class-level
`threading.Lock` is modelled as a `Bool` (`true` = locked); calls into the
opaque concrete backend are recorded in a trace of `BackendCall` events, and
the outcome of each such call is supplied by a `BackendBehavior` oracle,
since concrete backends live outside this module.
-/

/-- Exceptions. `exc` stands for an arbitrary backend/library exception
(`BluetoothBackendException` or anything else a backend may raise);
`notImplementedError` is Python's `NotImplementedError`. -/
inductive Err where
  | exc (msg : String)
  | notImplementedError
deriving Repr, DecidableEq

/-- A call made on the opaque concrete backend object. -/
inductive BackendCall where
  | connectCall (mac : String) (timeout : Option Nat)
  | disconnectCall
deriving Repr, DecidableEq

/-- Behaviour oracle for an opaque concrete backend instance: the result of
`backend.connect(mac, timeout=timeout)`, of `backend.disconnect()`, and of
`backend.check_backend()` (which may return a `Bool` or itself raise). -/
structure BackendBehavior where
  connectResult : String → Option Nat → Except Err Unit
  disconnectResult : Except Err Unit
  checkBackendResult : Except Err Bool

/-- `_BackendConnection` instance state: `self._backend`, `self._mac`,
`self._timeout`, `self._has_lock`. The class-level `_lock` is shared, so it
is passed separately as a `Bool`. -/
structure Connection where
  backend : BackendBehavior
  mac : String
  timeout : Option Nat
  has_lock : Bool

/-- `BluetoothInterface` instance state: `self._backend`. -/
structure BluetoothInterface where
  backend : BackendBehavior

/-- Result of running one guard method: the updated guard, the state of the
shared class-level lock, the backend calls made, and whether the method
returned normally (`ok`) or raised (`error`). -/
structure StepResult where
  conn : Connection
  lock : Bool
  calls : List BackendCall
  result : Except Err Unit

/-- `_BackendConnection.__init__(self, backend, mac, timeout=None)`:
stores the three arguments and sets `self._has_lock = False`. -/
def Connection.init (backend : BackendBehavior) (mac : String)
    (timeout : Option Nat) : Connection :=
  { backend := backend, mac := mac, timeout := timeout, has_lock := false }

/-- `_BackendConnection._cleanup(self)`:
`if self._has_lock: try: self._backend.disconnect() finally:
self._lock.release(); self._has_lock = False`.  There is no `except`
clause, so an exception raised by `disconnect` propagates after the
`finally` block has released the lock and cleared the flag. -/
def Connection.cleanup (c : Connection) (lock : Bool) : StepResult :=
  if c.has_lock then
    { conn := { c with has_lock := false }
      lock := false
      calls := [BackendCall.disconnectCall]
      result := c.backend.disconnectResult }
  else
    { conn := c, lock := lock, calls := [], result := Except.ok () }

/-- `_BackendConnection.__enter__(self)`: `self._lock.acquire()` —
`acquire` blocks the calling thread until the lock is free, so this
function models the method body as run once the lock has been obtained
(on return the lock is held) — then `self._has_lock = True`, then
`try: self._backend.connect(self._mac, timeout=self._timeout)
except: self._cleanup(); raise`.  If `_cleanup` itself raises, the bare
`raise` is never reached and the cleanup exception propagates instead. -/
def Connection.enter (c : Connection) : StepResult :=
  let c1 := { c with has_lock := true }
  match c.backend.connectResult c.mac c.timeout with
  | Except.ok _ =>
      { conn := c1
        lock := true
        calls := [BackendCall.connectCall c.mac c.timeout]
        result := Except.ok () }
  | Except.error e =>
      let r := c1.cleanup true
      { conn := r.conn
        lock := r.lock
        calls := BackendCall.connectCall c.mac c.timeout :: r.calls
        result :=
          match r.result with
          | Except.ok _ => Except.error e
          | Except.error e2 => Except.error e2 }

/-- `_BackendConnection.__exit__(self, exc_type, exc_val, exc_tb)`:
calls `self._cleanup()`. -/
def Connection.exitGuard (c : Connection) (lock : Bool) : StepResult :=
  c.cleanup lock

/-- `_BackendConnection.__del__(self)`: calls `self._cleanup()`.  The
Python runtime swallows any exception escaping a `__del__` finalizer, so
the result is always `ok` even when `disconnect` raised. -/
def Connection.delGuard (c : Connection) (lock : Bool) : StepResult :=
  let r := c.cleanup lock
  { r with result := Except.ok () }

/-- `_BackendConnection.is_connected()` (static):
`return _BackendConnection._lock.locked()`. -/
def Connection.is_connected (lock : Bool) : Bool :=
  lock

/-- `BluetoothInterface.__init__(self, backend, *, adapter, address_type,
**kwargs)`: constructs the backend instance (modelled by its behaviour
oracle), then executes the statement `self._backend.check_backend()`.
The boolean returned by `check_backend` is discarded; only an exception
raised by it aborts construction. -/
def BluetoothInterface.init (backend : BackendBehavior) :
    Except Err BluetoothInterface :=
  match backend.checkBackendResult with
  | Except.ok _ => Except.ok { backend := backend }
  | Except.error e => Except.error e

/-- `BluetoothInterface.connect(self, mac, timeout=None)`:
`return _BackendConnection(self._backend, mac, timeout)`. -/
def BluetoothInterface.connect (iface : BluetoothInterface) (mac : String)
    (timeout : Option Nat) : Connection :=
  Connection.init iface.backend mac timeout

/-- `BluetoothInterface.connect` with the shared lock state and the backend
call trace threaded explicitly: the method body only constructs a new
`_BackendConnection`, so the lock is returned unchanged and no backend
call is made. -/
def BluetoothInterface.connectRun (iface : BluetoothInterface) (lock : Bool)
    (mac : String) (timeout : Option Nat) :
    Connection × Bool × List BackendCall :=
  (iface.connect mac timeout, lock, [])

/-- `BluetoothInterface.__del__(self)` body:
`if self.is_connected(): self._backend.disconnect()`, where
`is_connected` is the static lock query.  Returns the backend calls made
and the raw outcome of the body (before finalizer semantics). -/
def BluetoothInterface.delBody (iface : BluetoothInterface) (lock : Bool) :
    List BackendCall × Except Err Unit :=
  if Connection.is_connected lock then
    ([BackendCall.disconnectCall], iface.backend.disconnectResult)
  else
    ([], Except.ok ())

/-- `BluetoothInterface.__del__(self)` as executed by the runtime: any
exception escaping a `__del__` finalizer is swallowed by the interpreter. -/
def BluetoothInterface.delInterface (iface : BluetoothInterface)
    (lock : Bool) : List BackendCall × Except Err Unit :=
  ((iface.delBody lock).1, Except.ok ())

/-! `AbstractBackend` default method bodies. -/

/-- `AbstractBackend.__init__` stores `adapter` and `address_type`
(plus opaque `kwargs`, omitted). -/
structure AbstractBackendState where
  adapter : String
  address_type : String

/-- `AbstractBackend.connect(self, mac, timeout=None)`: the body is a
docstring only, i.e. it returns `None` and mutates nothing. -/
def AbstractBackend.connect (s : AbstractBackendState) (mac : String)
    (timeout : Option Nat) : AbstractBackendState × Except Err Unit :=
  (s, Except.ok ())

/-- `AbstractBackend.disconnect(self)`: the body is a docstring only. -/
def AbstractBackend.disconnect (s : AbstractBackendState) :
    AbstractBackendState × Except Err Unit :=
  (s, Except.ok ())

/-- `AbstractBackend.write_handle(self, handle, value)`:
`raise NotImplementedError`. -/
def AbstractBackend.write_handle (s : AbstractBackendState) (handle : Nat)
    (value : List Nat) : Except Err Unit :=
  Except.error Err.notImplementedError

/-- `AbstractBackend.wait_for_notification(self, handle, delegate,
notification_timeout)`: `raise NotImplementedError`. -/
def AbstractBackend.wait_for_notification (s : AbstractBackendState)
    (handle : Nat) (delegate : Unit) (notification_timeout : Nat) :
    Except Err Unit :=
  Except.error Err.notImplementedError

/-- `AbstractBackend.read_handle(self, handle, timeout=None)`:
`raise NotImplementedError`. -/
def AbstractBackend.read_handle (s : AbstractBackendState) (handle : Nat)
    (timeout : Option Nat) : Except Err (List Nat) :=
  Except.error Err.notImplementedError

/-! System-level interleaving model for the mutual-exclusion invariant:
one `BluetoothInterface` (hence one shared backend and the single
class-level lock), any number of guards created by `connect`, and an
arbitrary interleaving of guard operations. -/

/-- Global state: the shared class-level `_lock` and every
`_BackendConnection` created so far (indexed by creation order). -/
structure SysState where
  lock : Bool
  guards : List Connection

/-- One operation of the interleaved execution.  `enterOp i ok` is guard
`i` running `__enter__`; `ok` is the outcome of the opaque call
`self._backend.connect(...)` made inside it.  `exitOp` is `__exit__`
(scoped exit, normal or on error) and `delOp` is discarding the guard
(`__del__`); both run `_cleanup`, whose effect on lock and flag does not
depend on whether `disconnect` raises. -/
inductive Op where
  | connectOp (mac : String) (timeout : Option Nat)
  | enterOp (i : Nat) (connectOk : Bool)
  | exitOp (i : Nat)
  | delOp (i : Nat)

/-- Initial state: the class-level lock is free, no guard exists. -/
def initState : SysState :=
  { lock := false, guards := [] }

/-- One step of the interleaved execution, mirroring the method bodies:
`connectOp` appends the fresh guard built by `BluetoothInterface.connect`;
`enterOp` runs `__enter__` — `self._lock.acquire()` blocks while the lock
is held, so the thread does not proceed (state unchanged) unless the lock
is free; once acquired, `self._has_lock = True`, and on a failed backend
connect, `_cleanup` releases the lock and clears the flag again;
`exitOp`/`delOp` run `_cleanup`: if the guard holds the lock, release it
and clear the flag, otherwise do nothing. -/
def step (bb : BackendBehavior) (s : SysState) (op : Op) : SysState :=
  match op with
  | Op.connectOp mac t =>
      { s with guards :=
          s.guards ++ [BluetoothInterface.connect { backend := bb } mac t] }
  | Op.enterOp i ok =>
      if s.lock then s
      else
        match s.guards[i]? with
        | none => s
        | some c =>
            if ok then
              { lock := true
                guards := s.guards.set i { c with has_lock := true } }
            else
              { lock := false
                guards := s.guards.set i { c with has_lock := false } }
  | Op.exitOp i =>
      match s.guards[i]? with
      | none => s
      | some c =>
          if c.has_lock then
            { lock := false
              guards := s.guards.set i { c with has_lock := false } }
          else s
  | Op.delOp i =>
      match s.guards[i]? with
      | none => s
      | some c =>
          if c.has_lock then
            { lock := false
              guards := s.guards.set i { c with has_lock := false } }
          else s

/-- Run a sequence of operations from the initial state. -/
def run (bb : BackendBehavior) (ops : List Op) : SysState :=
  ops.foldl (step bb) initState

/-- Inductive invariant: every guard whose `_has_lock` flag is set implies
the shared lock is held, and at most one guard has the flag set. -/
def SysInv (s : SysState) : Prop :=
  (∀ (i : Nat) (c : Connection), s.guards[i]? = some c →
    c.has_lock = true → s.lock = true) ∧
  (∀ (i j : Nat) (ci cj : Connection), s.guards[i]? = some ci →
    s.guards[j]? = some cj → ci.has_lock = true → cj.has_lock = true → i = j)

/-! Concrete backend behaviours and guards used to evaluate the model on
explicit inputs. -/

/-- A well-behaved backend: every operation succeeds, `check_backend()`
returns `True`. -/
def bbOk : BackendBehavior :=
  { connectResult := fun _ _ => Except.ok ()
    disconnectResult := Except.ok ()
    checkBackendResult := Except.ok true }

/-- An unusable backend: `check_backend()` returns `False` (without
raising), every other operation succeeds. -/
def bbUnusable : BackendBehavior :=
  { connectResult := fun _ _ => Except.ok ()
    disconnectResult := Except.ok ()
    checkBackendResult := Except.ok false }

/-- A backend whose `connect` raises and whose `disconnect` succeeds. -/
def bbConnectFail : BackendBehavior :=
  { connectResult := fun _ _ => Except.error (Err.exc "connect failed")
    disconnectResult := Except.ok ()
    checkBackendResult := Except.ok true }

/-- A backend whose `connect` succeeds and whose `disconnect` raises. -/
def bbDisconnectFail : BackendBehavior :=
  { connectResult := fun _ _ => Except.ok ()
    disconnectResult := Except.error (Err.exc "disconnect failed")
    checkBackendResult := Except.ok true }

/-- A fresh guard over `bbConnectFail`, as produced by `connect`. -/
def cFail : Connection :=
  { backend := bbConnectFail, mac := "AA:BB:CC:DD:EE:FF", timeout := some 5
    has_lock := false }

/-- A guard over `bbDisconnectFail` that has reached the `Held` state. -/
def cHeld : Connection :=
  { backend := bbDisconnectFail, mac := "AA:BB:CC:DD:EE:FF", timeout := none
    has_lock := true }

/-- A guard over `bbOk` that has reached the `Held` state. -/
def cHeldOk : Connection :=
  { backend := bbOk, mac := "AA:BB:CC:DD:EE:FF", timeout := none
    has_lock := true }

/-- A concrete operation sequence: create one guard, enter it successfully. -/
def ops0 : List Op :=
  [Op.connectOp "AA:BB:CC:DD:EE:FF" none, Op.enterOp 0 true]

/-- The guard produced by `ops0`: created over `bbOk`, then entered. -/
def g0 : Connection :=
  { backend := bbOk, mac := "AA:BB:CC:DD:EE:FF", timeout := none
    has_lock := true }

/-- The empty system state satisfies the invariant. -/
theorem sysInv_initState : SysInv initState := by
  constructor
  · intro i c hc _
    simp [initState] at hc
  · intro i j ci cj hi _ _ _
    simp [initState] at hi

/-- Appending a guard whose flag is clear preserves the invariant. -/
theorem sysInv_append_fresh (s : SysState) (g : Connection)
    (hg : g.has_lock = false) (h : SysInv s) :
    SysInv { s with guards := s.guards ++ [g] } := by
  obtain ⟨h1, h2⟩ := h
  have key : ∀ (i : Nat) (c : Connection), (s.guards ++ [g])[i]? = some c →
      c.has_lock = true → s.guards[i]? = some c := by
    intro i c hc hl
    rw [List.getElem?_append] at hc
    split at hc
    · exact hc
    · cases hk : i - s.guards.length with
      | zero =>
          rw [hk] at hc
          simp at hc
          rw [← hc, hg] at hl
          cases hl
      | succ n =>
          rw [hk] at hc
          simp at hc
  exact ⟨fun i c hc hl => h1 i c (key i c hc hl) hl,
    fun i j ci cj hi hj hli hlj =>
      h2 i j ci cj (key i ci hi hli) (key j cj hj hlj) hli hlj⟩

/-- Acquiring the free lock for guard `i` preserves the invariant. -/
theorem sysInv_acquire (s : SysState) (i : Nat) (c : Connection)
    (hlock : s.lock = false) (h : SysInv s) :
    SysInv { lock := true,
             guards := s.guards.set i { c with has_lock := true } } := by
  obtain ⟨h1, h2⟩ := h
  have hnone : ∀ (j : Nat) (cj : Connection), s.guards[j]? = some cj →
      cj.has_lock = false := by
    intro j cj hj
    cases hcj : cj.has_lock with
    | false => rfl
    | true =>
        have := h1 j cj hj hcj
        rw [hlock] at this
        cases this
  refine ⟨fun _ _ _ _ => rfl, ?_⟩
  intro j k cj ck hj hk hlj hlk
  have hji : j = i := by
    by_contra hne
    rw [List.getElem?_set_ne (fun hh => hne hh.symm)] at hj
    rw [hnone j cj hj] at hlj
    cases hlj
  have hki : k = i := by
    by_contra hne
    rw [List.getElem?_set_ne (fun hh => hne hh.symm)] at hk
    rw [hnone k ck hk] at hlk
    cases hlk
  rw [hji, hki]

/-- Clearing guard `i`'s flag and releasing the lock preserves the
invariant, provided every guard whose flag is set has index `i`. -/
theorem sysInv_clear (s : SysState) (i : Nat) (c : Connection)
    (honly : ∀ (j : Nat) (cj : Connection), s.guards[j]? = some cj →
      cj.has_lock = true → j = i) :
    SysInv { lock := false,
             guards := s.guards.set i { c with has_lock := false } } := by
  have hnone : ∀ (j : Nat) (cj : Connection),
      (s.guards.set i { c with has_lock := false })[j]? = some cj →
      cj.has_lock = true → False := by
    intro j cj hj hlj
    rw [List.getElem?_set] at hj
    split at hj
    · split at hj
      · cases hj
        cases hlj
      · cases hj
    · rename_i hne
      exact hne (honly j cj hj hlj).symm
  exact ⟨fun j cj hj hlj => absurd hlj (fun hl => hnone j cj hj hl),
    fun j k cj ck hj hk hlj hlk => absurd hlj (fun hl => hnone j cj hj hl)⟩

/-- Every operation preserves the invariant. -/
theorem sysInv_step (bb : BackendBehavior) (s : SysState) (op : Op)
    (h : SysInv s) : SysInv (step bb s op) := by
  cases op with
  | connectOp mac t =>
      exact sysInv_append_fresh s _ rfl h
  | enterOp i ok =>
      simp only [step]
      cases hlock : s.lock with
      | true => simp only [if_true]; exact h
      | false =>
          simp only [Bool.false_eq_true, if_false]
          cases hc : s.guards[i]? with
          | none => exact h
          | some c =>
              cases ok with
              | true => exact sysInv_acquire s i c hlock h
              | false =>
                  refine sysInv_clear s i c ?_
                  intro j cj hj hlj
                  have := h.1 j cj hj hlj
                  rw [hlock] at this
                  cases this
  | exitOp i =>
      simp only [step]
      cases hc : s.guards[i]? with
      | none => exact h
      | some c =>
          dsimp only
          cases hcl : c.has_lock with
          | false => rw [if_neg (by simp [hcl])]; exact h
          | true =>
              rw [if_pos rfl]
              exact sysInv_clear s i c
                (fun j cj hj hlj => h.2 j i cj c hj hc hlj hcl)
  | delOp i =>
      simp only [step]
      cases hc : s.guards[i]? with
      | none => exact h
      | some c =>
          dsimp only
          cases hcl : c.has_lock with
          | false => rw [if_neg (by simp [hcl])]; exact h
          | true =>
              rw [if_pos rfl]
              exact sysInv_clear s i c
                (fun j cj hj hlj => h.2 j i cj c hj hc hlj hcl)

/-- Every reachable state satisfies the invariant. -/
theorem sysInv_run (bb : BackendBehavior) (ops : List Op) :
    SysInv (run bb ops) := by
  suffices hgen : ∀ (s : SysState), SysInv s → SysInv (ops.foldl (step bb) s) by
    exact hgen initState sysInv_initState
  induction ops with
  | nil => intro s hs; exact hs
  | cons op ops ih =>
      intro s hs
      exact ih (step bb s op) (sysInv_step bb s op hs)

/-! Claim theorems. -/

/-- Claim C1: for every sequence of guard operations (guards created via
`BluetoothInterface.connect`, entered, exited, or discarded), in every
reachable state at most one guard has its `_has_lock` flag true: any two
guards whose flag is set are the same guard. -/
theorem c1_mutual_exclusion (bb : BackendBehavior) (ops : List Op)
    (i j : Nat) (ci cj : Connection)
    (hi : (run bb ops).guards[i]? = some ci)
    (hj : (run bb ops).guards[j]? = some cj)
    (hli : ci.has_lock = true) (hlj : cj.has_lock = true) : i = j :=
  (sysInv_run bb ops).2 i j ci cj hi hj hli hlj

/-- Witness for C1: after creating one guard and entering it, guard 0 holds
the lock, and the theorem applied at `i = j = 0` yields `0 = 0`. -/
theorem c1_mutual_exclusion_witness :
    ((run bbOk ops0).guards[0]? = some g0) ∧ g0.has_lock = true ∧
      (0 : Nat) = 0 :=
  ⟨rfl, rfl, c1_mutual_exclusion bbOk ops0 0 0 g0 g0 rfl rfl rfl rfl⟩

/-- Claim C2 (refuted by the code): `BluetoothInterface.__init__` executes
`self._backend.check_backend()` but discards the returned boolean, so a
backend whose `check_backend()` returns `False` is accepted: construction
succeeds and the resulting interface hands out ordinary guards. -/
theorem c2_init_ignores_check_backend :
    BluetoothInterface.init bbUnusable =
      Except.ok { backend := bbUnusable } ∧
    BluetoothInterface.connect { backend := bbUnusable } "AA:BB:CC:DD:EE:FF"
        none =
      { backend := bbUnusable, mac := "AA:BB:CC:DD:EE:FF", timeout := none
        has_lock := false } :=
  ⟨rfl, rfl⟩

/-- Claim C3: if the backend `connect` raises during `__enter__`, then once
the entry has finished the shared lock is free and the guard's `_has_lock`
flag is false; the entry raises, and when the cleanup's `disconnect` does
not itself raise, the propagated error is the original connect error. -/
theorem c3_enter_connect_fail_releases_lock (c : Connection) (e : Err)
    (h : c.backend.connectResult c.mac c.timeout = Except.error e) :
    (Connection.enter c).lock = false ∧
    (Connection.enter c).conn.has_lock = false ∧
    (∃ e2, (Connection.enter c).result = Except.error e2) ∧
    (c.backend.disconnectResult = Except.ok () →
      (Connection.enter c).result = Except.error e) := by
  cases hd : c.backend.disconnectResult with
  | ok u =>
      cases u
      refine ⟨?_, ?_, ⟨e, ?_⟩, fun _ => ?_⟩ <;>
        simp [Connection.enter, Connection.cleanup, h, hd]
  | error e2 =>
      refine ⟨?_, ?_, ⟨e2, ?_⟩, fun hcontra => ?_⟩
      · simp [Connection.enter, Connection.cleanup, h, hd]
      · simp [Connection.enter, Connection.cleanup, h, hd]
      · simp [Connection.enter, Connection.cleanup, h, hd]
      · cases hcontra

/-- Witness for C3: a guard whose backend connect raises; entering it
leaves the lock free, the flag clear, and propagates the connect error. -/
theorem c3_witness :
    (cFail.backend.connectResult cFail.mac cFail.timeout =
      Except.error (Err.exc "connect failed")) ∧
    ((Connection.enter cFail).lock = false ∧
     (Connection.enter cFail).conn.has_lock = false ∧
     (∃ e2, (Connection.enter cFail).result = Except.error e2) ∧
     (cFail.backend.disconnectResult = Except.ok () →
       (Connection.enter cFail).result =
         Except.error (Err.exc "connect failed"))) :=
  ⟨rfl, c3_enter_connect_fail_releases_lock cFail (Err.exc "connect failed")
    rfl⟩

/-- Claim C4: if a held guard's backend `disconnect` raises during
`_cleanup`, the lock is nevertheless released and the `_has_lock` flag is
cleared (the `finally` block runs) before the error escapes. -/
theorem c4_cleanup_disconnect_fail (c : Connection) (lock : Bool) (e : Err)
    (h1 : c.has_lock = true)
    (h2 : c.backend.disconnectResult = Except.error e) :
    (Connection.cleanup c lock).lock = false ∧
    (Connection.cleanup c lock).conn.has_lock = false ∧
    (Connection.cleanup c lock).result = Except.error e := by
  simp [Connection.cleanup, h1, h2]

/-- Witness for C4: a held guard over a backend whose disconnect raises. -/
theorem c4_cleanup_disconnect_fail_witness :
    (cHeld.has_lock = true) ∧
    (cHeld.backend.disconnectResult =
      Except.error (Err.exc "disconnect failed")) ∧
    ((Connection.cleanup cHeld true).lock = false ∧
     (Connection.cleanup cHeld true).conn.has_lock = false ∧
     (Connection.cleanup cHeld true).result =
       Except.error (Err.exc "disconnect failed")) :=
  ⟨rfl, rfl, c4_cleanup_disconnect_fail cHeld true
    (Err.exc "disconnect failed") rfl rfl⟩

/-- Claim C5: for a guard that reached `Held`, running `_cleanup` twice
performs the backend disconnect and the lock release exactly once in
total: the first call makes exactly one `disconnect` call and leaves the
lock released, and the second call returns the state unchanged, makes no
backend call, and raises nothing. -/
theorem c5_cleanup_idempotent (c : Connection) (lock : Bool)
    (h : c.has_lock = true) :
    (Connection.cleanup c lock).calls = [BackendCall.disconnectCall] ∧
    (Connection.cleanup c lock).lock = false ∧
    Connection.cleanup (Connection.cleanup c lock).conn
        (Connection.cleanup c lock).lock =
      { conn := (Connection.cleanup c lock).conn
        lock := (Connection.cleanup c lock).lock
        calls := []
        result := Except.ok () } := by
  simp [Connection.cleanup, h]

/-- Witness for C5: a held guard over a well-behaved backend. -/
theorem c5_cleanup_idempotent_witness :
    (cHeldOk.has_lock = true) ∧
    ((Connection.cleanup cHeldOk true).calls =
       [BackendCall.disconnectCall] ∧
     (Connection.cleanup cHeldOk true).lock = false ∧
     Connection.cleanup (Connection.cleanup cHeldOk true).conn
         (Connection.cleanup cHeldOk true).lock =
       { conn := (Connection.cleanup cHeldOk true).conn
         lock := (Connection.cleanup cHeldOk true).lock
         calls := []
         result := Except.ok () }) :=
  ⟨rfl, c5_cleanup_idempotent cHeldOk true rfl⟩

/-- Claim C6 counterexample: entering a guard whose backend `connect`
raises propagates the error, but a backend `disconnect` call DOES occur,
because `_cleanup` unconditionally calls `disconnect` once `_has_lock` is
set — contradicting the claim that no disconnect call occurs. -/
theorem c6_counterexample :
    (Connection.enter cFail).result =
      Except.error (Err.exc "connect failed") ∧
    (Connection.enter cFail).calls =
      [BackendCall.connectCall "AA:BB:CC:DD:EE:FF" (some 5),
       BackendCall.disconnectCall] ∧
    BackendCall.disconnectCall ∈ (Connection.enter cFail).calls := by
  refine ⟨rfl, rfl, ?_⟩
  simp [Connection.enter, Connection.cleanup, cFail, bbConnectFail]

/-- Claim C6 as amended: if the backend `connect` raises during `__enter__`,
the error propagates (the original one when the cleanup disconnect does not
itself raise), `is_connected()` is false afterwards, and exactly one
backend `disconnect` call occurs — `_cleanup` attempts a disconnect even
though connect never succeeded. -/
theorem c6_enter_fail_behavior (c : Connection) (e : Err)
    (h : c.backend.connectResult c.mac c.timeout = Except.error e) :
    (∃ e2, (Connection.enter c).result = Except.error e2) ∧
    Connection.is_connected (Connection.enter c).lock = false ∧
    (Connection.enter c).calls =
      [BackendCall.connectCall c.mac c.timeout,
       BackendCall.disconnectCall] ∧
    (c.backend.disconnectResult = Except.ok () →
      (Connection.enter c).result = Except.error e) := by
  cases hd : c.backend.disconnectResult with
  | ok u =>
      cases u
      refine ⟨⟨e, ?_⟩, ?_, ?_, fun _ => ?_⟩ <;>
        simp [Connection.enter, Connection.cleanup, Connection.is_connected,
          h, hd]
  | error e2 =>
      refine ⟨⟨e2, ?_⟩, ?_, ?_, fun hcontra => ?_⟩
      · simp [Connection.enter, Connection.cleanup, h, hd]
      · simp [Connection.enter, Connection.cleanup, Connection.is_connected,
          h, hd]
      · simp [Connection.enter, Connection.cleanup, h, hd]
      · cases hcontra

/-- Witness for the amended C6: entering `cFail` propagates the connect
error, leaves `is_connected()` false, and makes exactly one disconnect
call. -/
theorem c6_enter_fail_behavior_witness :
    (cFail.backend.connectResult cFail.mac cFail.timeout =
      Except.error (Err.exc "connect failed")) ∧
    ((∃ e2, (Connection.enter cFail).result = Except.error e2) ∧
     Connection.is_connected (Connection.enter cFail).lock = false ∧
     (Connection.enter cFail).calls =
       [BackendCall.connectCall cFail.mac cFail.timeout,
        BackendCall.disconnectCall] ∧
     (cFail.backend.disconnectResult = Except.ok () →
       (Connection.enter cFail).result =
         Except.error (Err.exc "connect failed"))) :=
  ⟨rfl, c6_enter_fail_behavior cFail (Err.exc "connect failed") rfl⟩

/-- Claim C7 counterexample: for a held guard whose backend `disconnect`
raises, `__exit__` does NOT suppress the failure: `_cleanup` has no
`except` clause, so the disconnect error propagates to the caller of the
exit path. -/
theorem c7_counterexample :
    (Connection.exitGuard cHeld true).result =
      Except.error (Err.exc "disconnect failed") ∧
    (Connection.exitGuard cHeld true).result ≠ Except.ok () :=
  ⟨rfl, fun hcontra => by cases hcontra⟩

/-- Claim C7 as amended: if a held guard's backend `disconnect` raises
during `Held → Released` cleanup, the lock is released and the flag
cleared first, and then the disconnect error propagates out of the
`__exit__`/`_cleanup` path; only the `__del__` discard path suppresses it
(finalizer semantics), likewise after releasing the lock. -/
theorem c7_cleanup_error_propagates (c : Connection) (lock : Bool) (e : Err)
    (h1 : c.has_lock = true)
    (h2 : c.backend.disconnectResult = Except.error e) :
    (Connection.exitGuard c lock).result = Except.error e ∧
    (Connection.exitGuard c lock).lock = false ∧
    (Connection.exitGuard c lock).conn.has_lock = false ∧
    (Connection.delGuard c lock).result = Except.ok () ∧
    (Connection.delGuard c lock).lock = false ∧
    (Connection.delGuard c lock).conn.has_lock = false := by
  simp [Connection.exitGuard, Connection.delGuard, Connection.cleanup,
    h1, h2]

/-- Witness for the amended C7: the held guard `cHeld` with a failing
disconnect. -/
theorem c7_cleanup_error_propagates_witness :
    (cHeld.has_lock = true) ∧
    (cHeld.backend.disconnectResult =
      Except.error (Err.exc "disconnect failed")) ∧
    ((Connection.exitGuard cHeld true).result =
       Except.error (Err.exc "disconnect failed") ∧
     (Connection.exitGuard cHeld true).lock = false ∧
     (Connection.exitGuard cHeld true).conn.has_lock = false ∧
     (Connection.delGuard cHeld true).result = Except.ok () ∧
     (Connection.delGuard cHeld true).lock = false ∧
     (Connection.delGuard cHeld true).conn.has_lock = false) :=
  ⟨rfl, rfl, c7_cleanup_error_propagates cHeld true
    (Err.exc "disconnect failed") rfl rfl⟩

/-- Claim C8: when a `BluetoothInterface` is destroyed while
`is_connected()` is true, it invokes `disconnect` on its backend and any
error from that disconnect is suppressed by the finalizer (the quantifier
over `iface` covers backends whose disconnect raises); when
`is_connected()` is false at destruction, no backend call occurs. -/
theorem c8_interface_del_best_effort (iface : BluetoothInterface) :
    BluetoothInterface.delInterface iface true =
      ([BackendCall.disconnectCall], Except.ok ()) ∧
    BluetoothInterface.delInterface iface false = ([], Except.ok ()) :=
  ⟨rfl, rfl⟩

/-- Claim C9: `BluetoothInterface.connect(mac, timeout)` returns a fresh
guard bound to the interface's backend, that mac and that timeout, with
`_has_lock` false; the shared lock is returned unchanged and no backend
call is made. -/
theorem c9_connect_returns_fresh_guard (iface : BluetoothInterface)
    (lock : Bool) (mac : String) (timeout : Option Nat) :
    BluetoothInterface.connectRun iface lock mac timeout =
      ({ backend := iface.backend, mac := mac, timeout := timeout
         has_lock := false }, lock, []) :=
  rfl

/-- Claim C10: the `AbstractBackend` default bodies: `connect` and
`disconnect` return normally for every input and change no state, while
`write_handle`, `read_handle` and `wait_for_notification` raise
`NotImplementedError` for every input. -/
theorem c10_abstract_backend_defaults (s : AbstractBackendState)
    (mac : String) (timeout : Option Nat) (handle : Nat)
    (value : List Nat) (delegate : Unit) (notification_timeout : Nat) :
    AbstractBackend.connect s mac timeout = (s, Except.ok ()) ∧
    AbstractBackend.disconnect s = (s, Except.ok ()) ∧
    AbstractBackend.write_handle s handle value =
      Except.error Err.notImplementedError ∧
    AbstractBackend.read_handle s handle timeout =
      Except.error Err.notImplementedError ∧
    AbstractBackend.wait_for_notification s handle delegate
        notification_timeout =
      Except.error Err.notImplementedError :=
  ⟨rfl, rfl, rfl, rfl, rfl⟩
